import Mathlib

/-!
Verification development for the figure-generation program
`código/generar_figuras.py` (mortality and life expectancy, Comunitat
Valenciana 2010-2023).

The program loads one semicolon-separated table into memory and derives,
for each of thirteen figures, filtered subsets, per-group means, ratios,
percent changes, sorted rankings and a pivoted location-by-year matrix.
This file gives a shallow embedding of those data transformations:

* a table is a list of rows (`Obs`), one field per CSV column;
* numeric columns are embedded as rationals (`ℚ`), so every aggregate is
  exact arithmetic; the unguarded divisions of the source stay unguarded
  here (division by zero yields the junk value `0` of `ℚ`);
* pandas row selections `df[mask]` become `List.filter`;
* `Series.mean` becomes `sum / length`;
* `.values[0]` on a selection becomes `List.head?`, `none` standing for
  the IndexError raised on an empty selection, and a chain of such
  extractions becomes an `Option` computation that propagates the first
  failure;
* `np.argsort` / `sort_values` are modelled as a stable ascending sort
  (ties kept in input order, the strongest reading of the libraries), and
  the `[::-1]` / `ascending=False` descending variants as the reversal of
  that stable ascending sort, which is what both numpy and pandas do.
-/

namespace Figuras

/-- One row of the consolidated dataset, one field per CSV column used by
`generar_figuras.py` (header names from the source: periodo,
causa_mortalidad, sexo, ubicacion, provincia, nivel_geografico,
tasa_mortalidad, esperanza_vida). -/
structure Obs where
  periodo : Int
  causa_mortalidad : String
  sexo : String
  ubicacion : String
  provincia : String
  nivel_geografico : String
  tasa_mortalidad : ℚ
  esperanza_vida : ℚ
  deriving DecidableEq

/-- The in-memory table produced by the loader: a list of rows. -/
abbrev Table := List Obs

/-- Mean of a numeric column selection, as computed by pandas
`Series.mean`: sum divided by count. On an empty selection the source
produces NaN; here the junk value `0 / 0 = 0` of `ℚ` stands in, and every
claim that touches the empty case states emptiness explicitly. -/
def mean (xs : List ℚ) : ℚ := xs.sum / (xs.length : ℚ)

/-- Extraction `selection.values[0]` of the source: the first element of a
selection, `none` modelling the IndexError raised when the selection is
empty. -/
def values0 (xs : List ℚ) : Option ℚ := xs.head?

/-- Percent change between two values, the expression
`((fin - inicio) / inicio) * 100` computed at lines 259, 655, 851-853,
919, 942 and 984 of the source. -/
def percent_change (inicio fin : ℚ) : ℚ := ((fin - inicio) / inicio) * 100

/-- Comparison used to model a stable ascending argsort
(`np.argsort` at line 321, pandas `sort_values` at lines 516 and 586):
positions are ordered by value, ties broken by position. A stable sort of
positions by value is exactly a sort by this relation, whose keys are
pairwise distinct. -/
def lexLe (xs : List ℚ) (i j : ℕ) : Prop :=
  xs.getD i 0 < xs.getD j 0 ∨ (xs.getD i 0 = xs.getD j 0 ∧ i ≤ j)

instance lexLe.decRel (xs : List ℚ) : DecidableRel (lexLe xs) := fun i j => by
  unfold lexLe
  infer_instance

instance lexLe.isTotal (xs : List ℚ) : IsTotal ℕ (lexLe xs) := by
  constructor
  intro i j
  rcases lt_trichotomy (xs.getD i 0) (xs.getD j 0) with h | h | h
  · exact Or.inl (Or.inl h)
  · rcases Nat.le_total i j with hij | hij
    · exact Or.inl (Or.inr ⟨h, hij⟩)
    · exact Or.inr (Or.inr ⟨h.symm, hij⟩)
  · exact Or.inr (Or.inl h)

instance lexLe.isTrans (xs : List ℚ) : IsTrans ℕ (lexLe xs) := by
  constructor
  intro i j k hij hjk
  rcases hij with h1 | ⟨e1, l1⟩ <;> rcases hjk with h2 | ⟨e2, l2⟩
  · exact Or.inl (h1.trans h2)
  · exact Or.inl (lt_of_lt_of_le h1 (le_of_eq e2))
  · exact Or.inl (lt_of_le_of_lt (le_of_eq e1) h2)
  · exact Or.inr ⟨e1.trans e2, l1.trans l2⟩

/-- Stable ascending argsort of a list of values: the list of positions
`0, ..., length - 1` sorted by value, ties kept in position order. This is
the strongest (stable) reading of `np.argsort` and of pandas
`sort_values(ascending=True)`; the descending variants of the source,
`np.argsort(...)[::-1]` and `sort_values(..., ascending=False)`, are the
reversal of this list, which is what both libraries compute. -/
def argsortAsc (xs : List ℚ) : List ℕ :=
  List.insertionSort (lexLe xs) (List.range xs.length)

/-- Distinct values of a string column in ascending order, as produced for
group keys by pandas `groupby` (which sorts keys) and for the index and
columns of `pivot_table`. -/
def sortedDedupStr (l : List String) : List String :=
  List.insertionSort (· ≤ ·) l.dedup

/-- Distinct values of an integer column in ascending order. -/
def sortedDedupInt (l : List Int) : List Int :=
  List.insertionSort (· ≤ ·) l.dedup

/-- Convenience constructor for a row, fields in declaration order. -/
def mkObs (p : Int) (causa sexo ubic prov nivel : String) (tasa ev : ℚ) : Obs :=
  ⟨p, causa, sexo, ubic, prov, nivel, tasa, ev⟩

/-- Figure 1, lines 109-110: rows with ubicacion "Comunitat Valenciana"
and causa_mortalidad "General". -/
def fig1_cv_general (df : Table) : Table :=
  df.filter fun r =>
    decide (r.ubicacion = "Comunitat Valenciana" ∧ r.causa_mortalidad = "General")

/-- Figure 1, line 127: the cv_ambos selection, sexo "Ambos sexos" inside
fig1_cv_general. The sort_values by periodo of the source is dropped here:
each later use either filters on one periodo value and takes element 0, or
takes a mean, and a stable sort by periodo changes neither (rows sharing
one periodo value keep their relative order under a stable sort). -/
def fig1_cv_ambos (df : Table) : Table :=
  (fig1_cv_general df).filter fun r => decide (r.sexo = "Ambos sexos")

/-- Figure 1, line 128: `cv_ambos[cv_ambos.periodo == 2023].values[0]` on
the tasa_mortalidad column; `none` is the IndexError on an empty
selection. -/
def fig1_mort_2023 (df : Table) : Option ℚ :=
  values0 (((fig1_cv_ambos df).filter fun r => decide (r.periodo = 2023)).map
    Obs.tasa_mortalidad)

/-- Figure 1, line 129: same extraction for periodo 2021. -/
def fig1_mort_2021 (df : Table) : Option ℚ :=
  values0 (((fig1_cv_ambos df).filter fun r => decide (r.periodo = 2021)).map
    Obs.tasa_mortalidad)

/-- The two numbers figure 1 interpolates into its annotations, in the
order the source computes them; the first failing extraction aborts the
figure. -/
def fig1_annots (df : Table) : Option (ℚ × ℚ) := do
  let mort_2023 ← fig1_mort_2023 df
  let mort_2021 ← fig1_mort_2021 df
  pure (mort_2023, mort_2021)

/-- Figure 2, lines 178-179: base filter ubicacion "Comunitat Valenciana"
and sexo "Ambos sexos". -/
def fig2_filter (r : Obs) : Bool :=
  decide (r.ubicacion = "Comunitat Valenciana" ∧ r.sexo = "Ambos sexos")

/-- Figure 2, lines 178-179: the per-cause group mean of tasa_mortalidad,
`groupby('causa_mortalidad')['tasa_mortalidad'].mean()` evaluated at one
cause. -/
def fig2_mean (df : Table) (causa : String) : ℚ :=
  mean (((df.filter fig2_filter).filter fun r =>
    decide (r.causa_mortalidad = causa)).map Obs.tasa_mortalidad)

/-- The group keys of figure 2: distinct causes in the filtered rows, in
the ascending key order pandas groupby produces. -/
def fig2_keys (df : Table) : List String :=
  sortedDedupStr ((df.filter fig2_filter).map Obs.causa_mortalidad)

/-- The grouped series of figure 2 before sorting. -/
def fig2_grouped (df : Table) : List (String × ℚ) :=
  (fig2_keys df).map fun c => (c, fig2_mean df c)

/-- Figure 2, line 180: ascending sort of the grouped series by value. -/
def fig2_causas_data (df : Table) : List (String × ℚ) :=
  (argsortAsc ((fig2_grouped df).map Prod.snd)).map fun i =>
    (fig2_grouped df).getD i ("", 0)

/-- Figure 2, line 183: drop the cause "General". -/
def fig2_especificas (df : Table) : List (String × ℚ) :=
  (fig2_causas_data df).filter fun p => decide (p.1 ≠ "General")

/-- The mean of tasa_mortalidad over rows with ubicacion "Comunitat
Valenciana", a given cause and a given sexo: the selection used by
figures 4 (lines 312-317), 5 (lines 381-386), 9 (lines 664-669) and 13
(lines 956-961). -/
def cv_causa_sexo_mean (df : Table) (causa sexo : String) : ℚ :=
  mean ((df.filter fun r =>
    decide (r.ubicacion = "Comunitat Valenciana" ∧ r.causa_mortalidad = causa
      ∧ r.sexo = sexo)).map Obs.tasa_mortalidad)

/-- Figure 3, lines 245-247: per-cause selection, ubicacion "Comunitat
Valenciana", the given cause, sexo "Ambos sexos" (the sort by periodo is
dropped for the reason given at fig1_cv_ambos). -/
def fig3_data (df : Table) (causa : String) : Table :=
  df.filter fun r =>
    decide (r.ubicacion = "Comunitat Valenciana" ∧ r.causa_mortalidad = causa
      ∧ r.sexo = "Ambos sexos")

/-- Figure 3, the cause list of line 238. -/
def fig3_causas : List String := ["Cancer", "Cardio", "Cerebro", "Suicidio"]

/-- Figure 3, lines 256-259: extract the 2010 and 2023 rates with
`.values[0]` and form the percent change. -/
def fig3_cambio (df : Table) (causa : String) : Option ℚ := do
  let inicio ← values0 (((fig3_data df causa).filter fun r =>
    decide (r.periodo = 2010)).map Obs.tasa_mortalidad)
  let fin ← values0 (((fig3_data df causa).filter fun r =>
    decide (r.periodo = 2023)).map Obs.tasa_mortalidad)
  pure (percent_change inicio fin)

/-- Figure 4, the cause list of line 308. -/
def fig4_causas : List String := ["General", "Cancer", "Cardio", "Cerebro", "Suicidio"]

/-- Figure 4, lines 312-318: ratio of the male mean to the female mean of
tasa_mortalidad for one cause, `h/m` appended unguarded (division by a
zero female mean is not checked; over `ℚ` it yields the junk value 0 where
the floating-point source yields inf or NaN). -/
def fig4_razon (df : Table) (causa : String) : ℚ :=
  cv_causa_sexo_mean df causa "Hombres" / cv_causa_sexo_mean df causa "Mujeres"

/-- Figure 4, lines 309-318: the ratio list in cause order. -/
def fig4_ratios (df : Table) : List ℚ :=
  fig4_causas.map (fig4_razon df)

/-- Figure 4, line 321: `orden = np.argsort(ratios)[::-1]`, the reversal
of the ascending argsort. -/
def fig4_orden (df : Table) : List ℕ :=
  (argsortAsc (fig4_ratios df)).reverse

/-- Figure 4, line 322: causes in descending ratio order. -/
def fig4_causas_ord (df : Table) : List String :=
  (fig4_orden df).map fun i => fig4_causas.getD i ""

/-- Figure 4, line 323: ratios in descending order. -/
def fig4_ratios_ord (df : Table) : List ℚ :=
  (fig4_orden df).map fun i => (fig4_ratios df).getD i 0

/-- Figure 5, lines 377-388: male and female mean rates per cause (the
cause list of line 374 equals fig3_causas). -/
def fig5_tasas (df : Table) : List ℚ × List ℚ :=
  (fig3_causas.map fun c => cv_causa_sexo_mean df c "Hombres",
   fig3_causas.map fun c => cv_causa_sexo_mean df c "Mujeres")

/-- Figure 6, lines 462-469: life expectancy at a given sexo for periodo
2023, `.values[0]` on the esperanza_vida column of the equality
selection. -/
def fig6_ev_2023 (df : Table) (sexo : String) : Option ℚ :=
  values0 ((df.filter fun r =>
    decide (r.ubicacion = "Comunitat Valenciana" ∧ r.causa_mortalidad = "General"
      ∧ r.sexo = sexo ∧ r.periodo = 2023)).map Obs.esperanza_vida)

/-- Figure 6, lines 462-473: the annotated 2023 gender gap
`ev_m_2023 - ev_h_2023`; the male extraction runs first, as in the
source. -/
def fig6_brecha (df : Table) : Option ℚ := do
  let ev_h ← fig6_ev_2023 df "Hombres"
  let ev_m ← fig6_ev_2023 df "Mujeres"
  pure (ev_m - ev_h)

/-- Figures 7 and 8, lines 512-514 and 577-579: causa "General", sexo
"Ambos sexos", nivel_geografico "HOSPITAL/ZONA SALUD". -/
def fig7_filter (r : Obs) : Bool :=
  decide (r.causa_mortalidad = "General" ∧ r.sexo = "Ambos sexos"
    ∧ r.nivel_geografico = "HOSPITAL/ZONA SALUD")

/-- Ascending lexicographic order on the (ubicacion, provincia) group keys
of figure 7, the key order of pandas groupby. -/
def keyLe (a b : String × String) : Prop :=
  a.1 < b.1 ∨ (a.1 = b.1 ∧ a.2 ≤ b.2)

instance keyLe.decRel : DecidableRel keyLe := fun a b => by
  unfold keyLe
  infer_instance

instance keyLe.isTotal : IsTotal (String × String) keyLe := by
  constructor
  intro a b
  rcases lt_trichotomy a.1 b.1 with h | h | h
  · exact Or.inl (Or.inl h)
  · rcases le_total a.2 b.2 with h2 | h2
    · exact Or.inl (Or.inr ⟨h, h2⟩)
    · exact Or.inr (Or.inr ⟨h.symm, h2⟩)
  · exact Or.inr (Or.inl h)

instance keyLe.isTrans : IsTrans (String × String) keyLe := by
  constructor
  intro a b c hab hbc
  rcases hab with h1 | ⟨e1, l1⟩ <;> rcases hbc with h2 | ⟨e2, l2⟩
  · exact Or.inl (h1.trans h2)
  · exact Or.inl (lt_of_lt_of_le h1 (le_of_eq e2))
  · exact Or.inl (lt_of_le_of_lt (le_of_eq e1) h2)
  · exact Or.inr ⟨e1.trans e2, l1.trans l2⟩

/-- Figure 7, lines 512-516: the group keys (ubicacion, provincia) of the
filtered rows, in ascending key order as groupby produces them. -/
def fig7_keys (df : Table) : List (String × String) :=
  List.insertionSort keyLe (((df.filter fig7_filter).map fun r =>
    (r.ubicacion, r.provincia)).dedup)

/-- Figure 7, lines 512-516: mean tasa_mortalidad of one group. -/
def fig7_group_mean (df : Table) (k : String × String) : ℚ :=
  mean (((df.filter fig7_filter).filter fun r =>
    decide (r.ubicacion = k.1 ∧ r.provincia = k.2)).map Obs.tasa_mortalidad)

/-- Figure 7: the grouped table before the final sort. -/
def fig7_grouped (df : Table) : List (String × String × ℚ) :=
  (fig7_keys df).map fun k => (k.1, k.2, fig7_group_mean df k)

/-- The aggregated values of the groups of figure 7, in group order. -/
def fig7_means (df : Table) : List ℚ :=
  (fig7_grouped df).map fun g => g.2.2

/-- Figure 7, line 516: `sort_values('tasa_mortalidad', ascending=True)`:
the ascending stable order of the groups by mean. -/
def fig7_orden (df : Table) : List ℕ :=
  argsortAsc (fig7_means df)

/-- Figure 7: the ranking rows in ascending mean order. -/
def fig7_ranking (df : Table) : List (String × String × ℚ) :=
  (fig7_orden df).map fun i => (fig7_grouped df).getD i ("", "", 0)

/-- Figure 7, line 531: the mean of the ranked means. -/
def fig7_media (df : Table) : ℚ :=
  mean ((fig7_ranking df).map fun g => g.2.2)

/-- Figure 8, lines 577-579: same filter as figure 7. -/
def fig8_filtered (df : Table) : Table :=
  df.filter fig7_filter

/-- The pivot index of figure 8: distinct ubicacion values of the filtered
rows, ascending as pivot_table sorts them. -/
def fig8_locs (df : Table) : List String :=
  sortedDedupStr ((fig8_filtered df).map Obs.ubicacion)

/-- The pivot columns of figure 8: distinct periodo values of the filtered
rows, ascending. -/
def fig8_years (df : Table) : List Int :=
  sortedDedupInt ((fig8_filtered df).map Obs.periodo)

/-- The filtered rows matching one (ubicacion, periodo) cell of the
pivot. -/
def fig8_matching (df : Table) (loc : String) (y : Int) : Table :=
  (fig8_filtered df).filter fun r => decide (r.ubicacion = loc ∧ r.periodo = y)

/-- One cell of the pivot of figure 8, lines 577-583: the mean
tasa_mortalidad of the matching rows (pivot_table with the default mean
aggregator), `none` for the NaN of a (location, year) pair with no
row. -/
def fig8_cell (df : Table) (loc : String) (y : Int) : Option ℚ :=
  if fig8_matching df loc y = [] then none
  else some (mean ((fig8_matching df loc y).map Obs.tasa_mortalidad))

/-- The pivot matrix of figure 8: one row per distinct location, one entry
per distinct year. -/
def fig8_pivot (df : Table) : List (String × List (Option ℚ)) :=
  (fig8_locs df).map fun loc => (loc, (fig8_years df).map fun y => fig8_cell df loc y)

/-- Row mean skipping missing cells, as `DataFrame.mean(axis=1)` skips
NaN: the derived overall-mean column of line 585. -/
def rowMeanSkipNone (cells : List (Option ℚ)) : ℚ :=
  mean (cells.filterMap id)

/-- The derived promedio column of figure 8, line 585. -/
def fig8_proms (df : Table) : List ℚ :=
  (fig8_pivot df).map fun row => rowMeanSkipNone row.2

/-- Figure 8, line 586: `sort_values('promedio', ascending=False)`, the
reversal of the stable ascending order by the derived column. -/
def fig8_orden (df : Table) : List ℕ :=
  (argsortAsc (fig8_proms df)).reverse

/-- Figure 8, lines 586-587: the matrix handed to the heatmap renderer:
rows in descending promedio order, the promedio column dropped (a row
carries only its location and its per-year cells). -/
def fig8_rendered (df : Table) : List (String × List (Option ℚ)) :=
  (fig8_orden df).map fun i => (fig8_pivot df).getD i ("", [])

/-- Concrete table for the tie analysis of the figure 4 ordering: every
cause has male and female rate 10, so all five male/female ratios are
equal. -/
def df3 : Table :=
  [mkObs 2020 "General" "Hombres" "Comunitat Valenciana" "Valencia" "REGION" 10 0,
   mkObs 2020 "General" "Mujeres" "Comunitat Valenciana" "Valencia" "REGION" 10 0,
   mkObs 2020 "Cancer" "Hombres" "Comunitat Valenciana" "Valencia" "REGION" 10 0,
   mkObs 2020 "Cancer" "Mujeres" "Comunitat Valenciana" "Valencia" "REGION" 10 0,
   mkObs 2020 "Cardio" "Hombres" "Comunitat Valenciana" "Valencia" "REGION" 10 0,
   mkObs 2020 "Cardio" "Mujeres" "Comunitat Valenciana" "Valencia" "REGION" 10 0,
   mkObs 2020 "Cerebro" "Hombres" "Comunitat Valenciana" "Valencia" "REGION" 10 0,
   mkObs 2020 "Cerebro" "Mujeres" "Comunitat Valenciana" "Valencia" "REGION" 10 0,
   mkObs 2020 "Suicidio" "Hombres" "Comunitat Valenciana" "Valencia" "REGION" 10 0,
   mkObs 2020 "Suicidio" "Mujeres" "Comunitat Valenciana" "Valencia" "REGION" 10 0]

/-- Failure classes of the loader: FileNotFoundError for a missing path,
EmptyDataError for a file with no lines, ParserError for a data line with
more fields than the header (all raised by pd.read_csv), and KeyError for
a parsed header lacking a column the loader reads. -/
inductive LoadErr where
  | fileNotFound
  | emptyData
  | parserErr
  | keyErr (col : String)
  deriving DecidableEq

/-- Fields of one line under the semicolon separator of line 89, split at
the character level. -/
def parseLine (s : String) : List String :=
  (s.toList.splitOn ';').map fun cs => String.mk cs

/-- The loader of lines 75-93. `pd.read_csv(filepath, sep=';')` raises a
FileNotFoundError-class error on a missing path, EmptyDataError on an
empty file and ParserError on a data line with more fields than the
header; the sanity prints of lines 91-92 then access the columns
"periodo" and "causa_mortalidad", raising KeyError when the parsed header
lacks one of them (which is what happens when the separator of the file
is not ";": the whole header line parses as one field). A file is the
list of its lines; the successful result is the parsed header plus data
rows. No failure is caught anywhere in the function. -/
def cargar_datos (file : Option (List String)) :
    Except LoadErr (List String × List (List String)) :=
  match file with
  | none => Except.error LoadErr.fileNotFound
  | some [] => Except.error LoadErr.emptyData
  | some (h :: rows) =>
    let header := parseLine h
    let parsed := rows.map parseLine
    if parsed.any fun row => header.length < row.length then
      Except.error LoadErr.parserErr
    else if "periodo" ∈ header then
      if "causa_mortalidad" ∈ header then Except.ok (header, parsed)
      else Except.error (LoadErr.keyErr "causa_mortalidad")
    else Except.error (LoadErr.keyErr "periodo")

/-- The base selection of figures 11 (lines 782-784), 12 (lines 820-822)
and 13 (lines 912-914): ubicacion "Comunitat Valenciana", causa
"General", sexo "Ambos sexos" (the sort by periodo is dropped for the
reason given at fig1_cv_ambos). -/
def cv_general_ambos (df : Table) : Table :=
  df.filter fun r =>
    decide (r.ubicacion = "Comunitat Valenciana" ∧ r.causa_mortalidad = "General"
      ∧ r.sexo = "Ambos sexos")

/-- Figure 9, lines 644-646: the "Ambos sexos" suicide series (also the
suicide selection of figure 13, lines 978-980). -/
def fig9_data_ambos (df : Table) : Table :=
  df.filter fun r =>
    decide (r.ubicacion = "Comunitat Valenciana" ∧ r.causa_mortalidad = "Suicidio"
      ∧ r.sexo = "Ambos sexos")

/-- Figure 9, lines 653-655: 2010 and 2023 suicide rates by `.values[0]`
and their percent change. -/
def fig9_cambio (df : Table) : Option ℚ := do
  let inicio ← values0 (((fig9_data_ambos df).filter fun r =>
    decide (r.periodo = 2010)).map Obs.tasa_mortalidad)
  let fin ← values0 (((fig9_data_ambos df).filter fun r =>
    decide (r.periodo = 2023)).map Obs.tasa_mortalidad)
  pure (percent_change inicio fin)

/-- Figure 9, lines 664-669: male over female mean suicide rate. -/
def fig9_razon_hm (df : Table) : ℚ :=
  cv_causa_sexo_mean df "Suicidio" "Hombres" / cv_causa_sexo_mean df "Suicidio" "Mujeres"

/-- Figure 10, lines 707-708: rows with causa "General" at the
hospital-zone level. -/
def fig10_scatter_data (df : Table) : Table :=
  df.filter fun r =>
    decide (r.causa_mortalidad = "General"
      ∧ r.nivel_geografico = "HOSPITAL/ZONA SALUD")

/-- Figure 10: the (tasa_mortalidad, esperanza_vida) point cloud; the
regression and correlation of lines 719-727 consume exactly these pairs
and produce real-valued statistics, which stay outside this rational
embedding. -/
def fig10_pairs (df : Table) : List (ℚ × ℚ) :=
  (fig10_scatter_data df).map fun r => (r.tasa_mortalidad, r.esperanza_vida)

/-- Figure 11, lines 772-775: the per-province series at nivel
"PROVINCIA" (plot order by periodo dropped as at fig1_cv_ambos). -/
def fig11_serie_provincia (df : Table) (prov : String) : List (Int × ℚ) :=
  (df.filter fun r =>
    decide (r.provincia = prov ∧ r.nivel_geografico = "PROVINCIA"
      ∧ r.causa_mortalidad = "General" ∧ r.sexo = "Ambos sexos")).map fun r =>
    (r.periodo, r.tasa_mortalidad)

/-- Figure 12, line 824: mean rate over the rows with periodo in
{2018, 2019}, the pre-COVID baseline (also computed verbatim at line 947
of figure 13). -/
def fig12_pre_covid (df : Table) : ℚ :=
  mean (((cv_general_ambos df).filter fun r =>
    decide (r.periodo = 2018 ∨ r.periodo = 2019)).map Obs.tasa_mortalidad)

/-- Figure 12, line 825: the 2020 rate by `.values[0]`. -/
def fig12_covid_2020 (df : Table) : Option ℚ :=
  values0 (((cv_general_ambos df).filter fun r =>
    decide (r.periodo = 2020)).map Obs.tasa_mortalidad)

/-- Figure 12, line 826: the 2021 rate by `.values[0]`. -/
def fig12_covid_2021 (df : Table) : Option ℚ :=
  values0 (((cv_general_ambos df).filter fun r =>
    decide (r.periodo = 2021)).map Obs.tasa_mortalidad)

/-- Figure 12, line 827: mean rate over the rows with periodo in
{2022, 2023}. -/
def fig12_post_covid (df : Table) : ℚ :=
  mean (((cv_general_ambos df).filter fun r =>
    decide (r.periodo = 2022 ∨ r.periodo = 2023)).map Obs.tasa_mortalidad)

/-- Figure 12, lines 850-853: the displayed variation list, percent
changes of 2020, 2021 and the post period against the pre-COVID
baseline. -/
def fig12_variaciones (df : Table) : Option (List ℚ) := do
  let c2020 ← fig12_covid_2020 df
  let c2021 ← fig12_covid_2021 df
  pure [0, percent_change (fig12_pre_covid df) c2020,
    percent_change (fig12_pre_covid df) c2021,
    percent_change (fig12_pre_covid df) (fig12_post_covid df)]

/-- Figure 13, line 917: the 2023 rate by `.values[0]`. -/
def fig13_mort_2023 (df : Table) : Option ℚ :=
  values0 (((cv_general_ambos df).filter fun r =>
    decide (r.periodo = 2023)).map Obs.tasa_mortalidad)

/-- Figure 13, line 918: the 2010 rate by `.values[0]`. -/
def fig13_mort_2010 (df : Table) : Option ℚ :=
  values0 (((cv_general_ambos df).filter fun r =>
    decide (r.periodo = 2010)).map Obs.tasa_mortalidad)

/-- Figure 13, lines 917-919: KPI 1, the 2023 rate and its percent change
against 2010 (the 2023 extraction runs first, as in the source). -/
def fig13_cambio_mort (df : Table) : Option ℚ := do
  let mort_2023 ← fig13_mort_2023 df
  let mort_2010 ← fig13_mort_2010 df
  pure (percent_change mort_2010 mort_2023)

/-- Figure 13, line 925: KPI 2, the displayed life expectancy. The source
assigns the literal 20.6, annotated as the official Conselleria value for
2022, and never reads the table here; the input table is a parameter only
to express that the displayed number does not depend on it. -/
def fig13_ev_dashboard (_df : Table) : ℚ := 20.6

/-- Figure 13, lines 930-932: the 2022 selection for KPI 3, ubicacion
"Comunitat Valenciana", causa "General", periodo 2022 (all sexo rows). -/
def fig13_cv_gen_2022 (df : Table) : Table :=
  df.filter fun r =>
    decide (r.ubicacion = "Comunitat Valenciana" ∧ r.causa_mortalidad = "General"
      ∧ r.periodo = 2022)

/-- Figure 13, line 933: male 2022 life expectancy by `.values[0]`. -/
def fig13_ev_h_2022 (df : Table) : Option ℚ :=
  values0 (((fig13_cv_gen_2022 df).filter fun r =>
    decide (r.sexo = "Hombres")).map Obs.esperanza_vida)

/-- Figure 13, line 934: female 2022 life expectancy by `.values[0]`. -/
def fig13_ev_m_2022 (df : Table) : Option ℚ :=
  values0 (((fig13_cv_gen_2022 df).filter fun r =>
    decide (r.sexo = "Mujeres")).map Obs.esperanza_vida)

/-- Figure 13, lines 933-935: KPI 3, the displayed 2022 gender gap
ev_m_2022 - ev_h_2022, computed from the loaded table. -/
def fig13_brecha_genero (df : Table) : Option ℚ := do
  let ev_h ← fig13_ev_h_2022 df
  let ev_m ← fig13_ev_m_2022 df
  pure (ev_m - ev_h)

/-- Figure 13, line 940: the historic baseline of the COVID-excess
percentage, the mean rate over all filtered rows with periodo up to
2019. -/
def fig13_promedio_historico (df : Table) : ℚ :=
  mean (((cv_general_ambos df).filter fun r =>
    decide (r.periodo ≤ 2019)).map Obs.tasa_mortalidad)

/-- Figure 13, lines 940-942: the COVID-excess percentage, 2021 against
the historic baseline. -/
def fig13_exceso_covid (df : Table) : Option ℚ := do
  let covid_2021 ← values0 (((cv_general_ambos df).filter fun r =>
    decide (r.periodo = 2021)).map Obs.tasa_mortalidad)
  pure (percent_change (fig13_promedio_historico df) covid_2021)

/-- Figure 13, the cause order of line 952. -/
def fig13_causas_ratio : List String :=
  ["Suicidio", "Cardio", "Cancer", "General", "Cerebro"]

/-- Figure 13, lines 952-962: male over female mean rate per cause. -/
def fig13_ratios_calculados (df : Table) : List ℚ :=
  fig13_causas_ratio.map fun c =>
    cv_causa_sexo_mean df c "Hombres" / cv_causa_sexo_mean df c "Mujeres"

/-- Figure 13, lines 967-969: group keys of the department ranking
(groupby over ubicacion alone). -/
def fig13_rank_keys (df : Table) : List String :=
  sortedDedupStr ((df.filter fig7_filter).map Obs.ubicacion)

/-- Figure 13, lines 967-969: mean rate of one department group. -/
def fig13_rank_mean (df : Table) (u : String) : ℚ :=
  mean (((df.filter fig7_filter).filter fun r =>
    decide (r.ubicacion = u)).map Obs.tasa_mortalidad)

/-- The ranked department means of figure 13 in key order. -/
def fig13_rank_vals (df : Table) : List ℚ :=
  (fig13_rank_keys df).map (fig13_rank_mean df)

/-- Figure 13, line 973: territorial disparity, (max - min) / min of the
department means, times 100. -/
def fig13_disparidad (df : Table) : ℚ :=
  (((fig13_rank_vals df).max?.getD 0 - (fig13_rank_vals df).min?.getD 0)
    / (fig13_rank_vals df).min?.getD 0) * 100

/-- Figure 13, lines 982-984: 2010 and 2023 suicide rates and their
percent change. -/
def fig13_suic_cambio (df : Table) : Option ℚ := do
  let suic_2010 ← values0 (((fig9_data_ambos df).filter fun r =>
    decide (r.periodo = 2010)).map Obs.tasa_mortalidad)
  let suic_2023 ← values0 (((fig9_data_ambos df).filter fun r =>
    decide (r.periodo = 2023)).map Obs.tasa_mortalidad)
  pure (percent_change suic_2010 suic_2023)

/-- Figure 1 as a state-threaded computation: the returned table is the
table the figure function leaves behind; the source only reads df
(filters, means, element extraction), so the threaded table is returned
untouched. The same shape is used for all thirteen figures. -/
def fig1_run (df : Table) : Table × Option (ℚ × ℚ) :=
  (df, fig1_annots df)

/-- Figure 2 threaded: the sorted specific-cause means are derived on a
fresh value, never written back. -/
def fig2_run (df : Table) : Table × List (String × ℚ) :=
  (df, fig2_especificas df)

/-- Figure 3 threaded: one percent change per specific cause. -/
def fig3_run (df : Table) : Table × List (Option ℚ) :=
  (df, fig3_causas.map (fig3_cambio df))

/-- Figure 4 threaded: descending causes and ratios. -/
def fig4_run (df : Table) : Table × List String × List ℚ :=
  (df, fig4_causas_ord df, fig4_ratios_ord df)

/-- Figure 5 threaded: male and female mean rates per cause. -/
def fig5_run (df : Table) : Table × List ℚ × List ℚ :=
  (df, fig5_tasas df)

/-- Figure 6 threaded: the annotated 2023 gender gap. -/
def fig6_run (df : Table) : Table × Option ℚ :=
  (df, fig6_brecha df)

/-- Figure 7 threaded: the ranking and its mean. -/
def fig7_run (df : Table) : Table × List (String × String × ℚ) × ℚ :=
  (df, fig7_ranking df, fig7_media df)

/-- Figure 8 threaded: the rendered matrix. The promedio column
assignment of line 585 mutates heatmap_data, the fresh frame returned by
pivot_table, never df; here that frame is the derived value fig8_pivot
and the assignment is the derived column fig8_proms. -/
def fig8_run (df : Table) : Table × List (String × List (Option ℚ)) :=
  (df, fig8_rendered df)

/-- Figure 9 threaded: suicide percent change and male/female ratio. -/
def fig9_run (df : Table) : Table × Option ℚ × ℚ :=
  (df, fig9_cambio df, fig9_razon_hm df)

/-- Figure 10 threaded: the scatter point cloud. -/
def fig10_run (df : Table) : Table × List (ℚ × ℚ) :=
  (df, fig10_pairs df)

/-- Figure 11 threaded: the three province series and the regional
series. -/
def fig11_run (df : Table) : Table × List (List (Int × ℚ)) × List (Int × ℚ) :=
  (df, ["Alicante", "Valencia", "Castellón"].map (fig11_serie_provincia df),
    (cv_general_ambos df).map fun r => (r.periodo, r.tasa_mortalidad))

/-- Figure 12 threaded: the four period aggregates and the variation
list. -/
def fig12_run (df : Table) : Table × ℚ × Option ℚ × Option ℚ × ℚ × Option (List ℚ) :=
  (df, fig12_pre_covid df, fig12_covid_2020 df, fig12_covid_2021 df,
    fig12_post_covid df, fig12_variaciones df)

/-- Figure 13 threaded: the dashboard aggregates. -/
def fig13_run (df : Table) :
    Table × Option ℚ × ℚ × Option ℚ × Option ℚ × ℚ × List ℚ × List ℚ × ℚ × Option ℚ :=
  (df, fig13_cambio_mort df, fig13_ev_dashboard df, fig13_brecha_genero df,
    fig13_exceso_covid df, fig12_pre_covid df, fig13_ratios_calculados df,
    fig13_rank_vals df, fig13_disparidad df, fig13_suic_cambio df)

/-- The pipeline of lines 1144-1161 on the loaded table: the thirteen
figure functions are called in order on the same table, each one handed
the table the previous one left behind. -/
def generar_todas_las_figuras_run (df0 : Table) :=
  let (df1, o1) := fig1_run df0
  let (df2, o2) := fig2_run df1
  let (df3r, o3) := fig3_run df2
  let (df4, o4) := fig4_run df3r
  let (df5, o5) := fig5_run df4
  let (df6, o6) := fig6_run df5
  let (df7, o7) := fig7_run df6
  let (df8, o8) := fig8_run df7
  let (df9, o9) := fig9_run df8
  let (df10, o10) := fig10_run df9
  let (df11, o11) := fig11_run df10
  let (df12, o12) := fig12_run df11
  let (df13, o13) := fig13_run df12
  (df13, o1, o2, o3, o4, o5, o6, o7, o8, o9, o10, o11, o12, o13)

/-- Concrete table for the figure 4 ratio check: male rates 20 and 40
(mean 30), female rates 5 and 15 (mean 10). -/
def df5 : Table :=
  [mkObs 2015 "Cancer" "Hombres" "Comunitat Valenciana" "Valencia" "REGION" 20 0,
   mkObs 2016 "Cancer" "Hombres" "Comunitat Valenciana" "Valencia" "REGION" 40 0,
   mkObs 2015 "Cancer" "Mujeres" "Comunitat Valenciana" "Valencia" "REGION" 5 0,
   mkObs 2016 "Cancer" "Mujeres" "Comunitat Valenciana" "Valencia" "REGION" 15 0]

/-- One row for the reordering check of the group mean. -/
def rowA : Obs :=
  mkObs 2010 "Cancer" "Ambos sexos" "Comunitat Valenciana" "Valencia" "REGION" 100 0

/-- A second row for the reordering check of the group mean. -/
def rowB : Obs :=
  mkObs 2011 "Cancer" "Ambos sexos" "Comunitat Valenciana" "Valencia" "REGION" 50 0

/-- Concrete table for the dashboard KPIs: 2022 life expectancy 18 for
men and 22 for women. -/
def dfA : Table :=
  [mkObs 2022 "General" "Hombres" "Comunitat Valenciana" "Valencia" "REGION" 0 18,
   mkObs 2022 "General" "Mujeres" "Comunitat Valenciana" "Valencia" "REGION" 0 22]

/-- A second dashboard table differing from dfA only in the female 2022
life expectancy (23 instead of 22). -/
def dfB : Table :=
  [mkObs 2022 "General" "Hombres" "Comunitat Valenciana" "Valencia" "REGION" 0 18,
   mkObs 2022 "General" "Mujeres" "Comunitat Valenciana" "Valencia" "REGION" 0 23]

/-- Concrete table over 2010-2019 whose rates are 50 for 2010-2017, 90 in
2018 and 110 in 2019: the 2018-2019 mean (100) differs from the 2010-2017
mean (50), so the two pre-COVID baselines differ. -/
def dfW : Table :=
  [mkObs 2010 "General" "Ambos sexos" "Comunitat Valenciana" "Valencia" "REGION" 50 0,
   mkObs 2011 "General" "Ambos sexos" "Comunitat Valenciana" "Valencia" "REGION" 50 0,
   mkObs 2012 "General" "Ambos sexos" "Comunitat Valenciana" "Valencia" "REGION" 50 0,
   mkObs 2013 "General" "Ambos sexos" "Comunitat Valenciana" "Valencia" "REGION" 50 0,
   mkObs 2014 "General" "Ambos sexos" "Comunitat Valenciana" "Valencia" "REGION" 50 0,
   mkObs 2015 "General" "Ambos sexos" "Comunitat Valenciana" "Valencia" "REGION" 50 0,
   mkObs 2016 "General" "Ambos sexos" "Comunitat Valenciana" "Valencia" "REGION" 50 0,
   mkObs 2017 "General" "Ambos sexos" "Comunitat Valenciana" "Valencia" "REGION" 50 0,
   mkObs 2018 "General" "Ambos sexos" "Comunitat Valenciana" "Valencia" "REGION" 90 0,
   mkObs 2019 "General" "Ambos sexos" "Comunitat Valenciana" "Valencia" "REGION" 110 0]

/-- Concrete table over 2010-2019 whose rates are 100 for 2010-2017, 90
in 2018 and 110 in 2019: the rates are not constant, yet the 2018-2019
mean and the 2010-2019 mean are both 100. -/
def dfX : Table :=
  [mkObs 2010 "General" "Ambos sexos" "Comunitat Valenciana" "Valencia" "REGION" 100 0,
   mkObs 2011 "General" "Ambos sexos" "Comunitat Valenciana" "Valencia" "REGION" 100 0,
   mkObs 2012 "General" "Ambos sexos" "Comunitat Valenciana" "Valencia" "REGION" 100 0,
   mkObs 2013 "General" "Ambos sexos" "Comunitat Valenciana" "Valencia" "REGION" 100 0,
   mkObs 2014 "General" "Ambos sexos" "Comunitat Valenciana" "Valencia" "REGION" 100 0,
   mkObs 2015 "General" "Ambos sexos" "Comunitat Valenciana" "Valencia" "REGION" 100 0,
   mkObs 2016 "General" "Ambos sexos" "Comunitat Valenciana" "Valencia" "REGION" 100 0,
   mkObs 2017 "General" "Ambos sexos" "Comunitat Valenciana" "Valencia" "REGION" 100 0,
   mkObs 2018 "General" "Ambos sexos" "Comunitat Valenciana" "Valencia" "REGION" 90 0,
   mkObs 2019 "General" "Ambos sexos" "Comunitat Valenciana" "Valencia" "REGION" 110 0]

/-- Concrete table for the pivot shape check: two locations, two years,
location "A" covered in 2010 and 2011 and location "B" only in 2010. -/
def df6 : Table :=
  [mkObs 2010 "General" "Ambos sexos" "A" "Valencia" "HOSPITAL/ZONA SALUD" 10 0,
   mkObs 2011 "General" "Ambos sexos" "A" "Valencia" "HOSPITAL/ZONA SALUD" 20 0,
   mkObs 2010 "General" "Ambos sexos" "B" "Valencia" "HOSPITAL/ZONA SALUD" 30 0]

theorem mean_singleton (x : ℚ) : mean [x] = x := by
  simp [mean]

theorem argsortAsc_perm (xs : List ℚ) : (argsortAsc xs).Perm (List.range xs.length) :=
  List.perm_insertionSort _ _

theorem argsortAsc_length (xs : List ℚ) : (argsortAsc xs).length = xs.length := by
  rw [(argsortAsc_perm xs).length_eq, List.length_range]

theorem argsortAsc_nodup (xs : List ℚ) : (argsortAsc xs).Nodup :=
  (argsortAsc_perm xs).nodup_iff.mpr (List.nodup_range _)

theorem argsortAsc_sorted (xs : List ℚ) : (argsortAsc xs).Sorted (lexLe xs) :=
  List.sorted_insertionSort _ _

/-- In the stable ascending argsort, positions holding equal values occur
in increasing position order: the sort is stable. -/
theorem argsortAsc_tie_lt (xs : List ℚ) {p q : ℕ} (hpq : p < q)
    (hq : q < (argsortAsc xs).length)
    (htie : xs.getD ((argsortAsc xs).getD p 0) 0
      = xs.getD ((argsortAsc xs).getD q 0) 0) :
    (argsortAsc xs).getD p 0 < (argsortAsc xs).getD q 0 := by
  have hp : p < (argsortAsc xs).length := hpq.trans hq
  have hrel : lexLe xs ((argsortAsc xs).get ⟨p, hp⟩) ((argsortAsc xs).get ⟨q, hq⟩) :=
    (argsortAsc_sorted xs).rel_get_of_lt (Fin.mk_lt_mk.mpr hpq)
  rw [List.get_eq_getElem, List.get_eq_getElem] at hrel
  rw [List.getD_eq_getElem _ _ hp, List.getD_eq_getElem _ _ hq] at htie ⊢
  rcases hrel with hlt | ⟨_, hle⟩
  · rw [htie] at hlt
    exact absurd hlt (lt_irrefl _)
  · refine lt_of_le_of_ne hle ?_
    intro h
    have := ((argsortAsc_nodup xs).getElem_inj_iff).mp h
    omega

/-- In the reversal of the stable ascending argsort (the descending order
of the source), positions holding equal values occur in decreasing
position order: ties come out in reverse of their input order. -/
theorem argsortDesc_tie_gt (xs : List ℚ) {p q : ℕ} (hpq : p < q)
    (hq : q < (argsortAsc xs).reverse.length)
    (htie : xs.getD ((argsortAsc xs).reverse.getD p 0) 0
      = xs.getD ((argsortAsc xs).reverse.getD q 0) 0) :
    (argsortAsc xs).reverse.getD q 0 < (argsortAsc xs).reverse.getD p 0 := by
  have hq' : q < (argsortAsc xs).length := by simpa using hq
  have hp' : p < (argsortAsc xs).length := lt_trans hpq hq'
  have hrp : (argsortAsc xs).reverse.getD p 0
      = (argsortAsc xs).getD ((argsortAsc xs).length - 1 - p) 0 := by
    rw [List.getD_eq_getElem _ _ (by simpa using hp'), List.getElem_reverse,
      List.getD_eq_getElem _ _ (by omega)]
  have hrq : (argsortAsc xs).reverse.getD q 0
      = (argsortAsc xs).getD ((argsortAsc xs).length - 1 - q) 0 := by
    rw [List.getD_eq_getElem _ _ (by simpa using hq'), List.getElem_reverse,
      List.getD_eq_getElem _ _ (by omega)]
  rw [hrp, hrq] at htie ⊢
  exact argsortAsc_tie_lt xs (by omega) (by
    rw [argsortAsc_length] at hq' ⊢
    omega) htie.symm

/-- C3 (amended): the ascending ranking of figure 7 is stable — groups
with equal means stay in their grouped (input) order — but the two
descending orderings, figure 4 (np.argsort reversed) and figure 8
(sort_values with ascending False, the reversal of the ascending sort),
place tied items in reverse of their input order, not in input order. -/
theorem claim_C3 (df : Table) (p q : ℕ) (hpq : p < q) :
    (q < (fig7_orden df).length →
      (fig7_means df).getD ((fig7_orden df).getD p 0) 0
        = (fig7_means df).getD ((fig7_orden df).getD q 0) 0 →
      (fig7_orden df).getD p 0 < (fig7_orden df).getD q 0)
    ∧ (q < (fig4_orden df).length →
      (fig4_ratios df).getD ((fig4_orden df).getD p 0) 0
        = (fig4_ratios df).getD ((fig4_orden df).getD q 0) 0 →
      (fig4_orden df).getD q 0 < (fig4_orden df).getD p 0)
    ∧ (q < (fig8_orden df).length →
      (fig8_proms df).getD ((fig8_orden df).getD p 0) 0
        = (fig8_proms df).getD ((fig8_orden df).getD q 0) 0 →
      (fig8_orden df).getD q 0 < (fig8_orden df).getD p 0) :=
  ⟨fun hq htie => argsortAsc_tie_lt (fig7_means df) hpq hq htie,
   fun hq htie => argsortDesc_tie_gt (fig4_ratios df) hpq hq htie,
   fun hq htie => argsortDesc_tie_gt (fig8_proms df) hpq hq htie⟩

/-- C3 witness: on the all-ties table df3, positions 0 and 1 of the
figure 4 descending order hold equal ratios and come out in reversed
index order. -/
theorem claim_C3_witness :
    (0 : ℕ) < 1 ∧ (fig4_orden df3).getD 1 0 < (fig4_orden df3).getD 0 0 := by
  have hr : fig4_ratios df3 = [1, 1, 1, 1, 1] := by
    norm_num +decide [fig4_ratios, fig4_causas, fig4_razon, cv_causa_sexo_mean, df3,
      mkObs, mean, List.filter_cons, List.filter_nil]
  have ho : fig4_orden df3 = [4, 3, 2, 1, 0] := by
    unfold fig4_orden
    rw [hr]
    decide
  exact ⟨Nat.zero_lt_one,
    (claim_C3 df3 0 1 Nat.zero_lt_one).2.1 (by rw [ho]; decide) (by rw [hr, ho]; decide)⟩

/-- C3 counterexample: on the table df3 all five male/female ratios of
figure 4 are equal, yet the descending ordering of line 321 lists the
causes in reverse of their input order ["General", "Cancer", "Cardio",
"Cerebro", "Suicidio"], so a tie is not broken by original order as the
claim states. -/
theorem claim_C3_cex :
    (fig4_ratios df3).Pairwise (· = ·)
      ∧ fig4_causas_ord df3 = ["Suicidio", "Cerebro", "Cardio", "Cancer", "General"]
      ∧ fig4_causas_ord df3 ≠ fig4_causas := by
  have hr : fig4_ratios df3 = [1, 1, 1, 1, 1] := by
    norm_num +decide [fig4_ratios, fig4_causas, fig4_razon, cv_causa_sexo_mean, df3,
      mkObs, mean, List.filter_cons, List.filter_nil]
  have ho : fig4_orden df3 = [4, 3, 2, 1, 0] := by
    unfold fig4_orden
    rw [hr]
    decide
  have hc : fig4_causas_ord df3 = ["Suicidio", "Cerebro", "Cardio", "Cancer", "General"] := by
    unfold fig4_causas_ord
    rw [ho]
    decide
  refine ⟨?_, hc, ?_⟩
  · rw [hr]
    decide
  · rw [hc]
    decide

/-- C4: the loader fails with a distinct, non-FileNotFound error when the
separator or the header of the file does not match what it reads (the
parsed header must contain the columns "periodo" and "causa_mortalidad",
which the loader accesses; a file written with another separator parses
as one wide field and so lacks them), fails with the FileNotFound error
when the path is missing, and a successful load guarantees both expected
columns were found; no branch recovers from a failure. -/
theorem claim_C4 (file : Option (List String)) :
    (file = none → cargar_datos file = Except.error LoadErr.fileNotFound)
    ∧ (∀ h rows, file = some (h :: rows) →
        ("periodo" ∉ parseLine h ∨ "causa_mortalidad" ∉ parseLine h) →
        ∃ e, e ≠ LoadErr.fileNotFound ∧ cargar_datos file = Except.error e)
    ∧ (∀ res, cargar_datos file = Except.ok res →
        "periodo" ∈ res.1 ∧ "causa_mortalidad" ∈ res.1) := by
  refine ⟨fun hf => by rw [hf]; rfl, ?_, ?_⟩
  · rintro h rows rfl hmiss
    by_cases hrag : (rows.map parseLine).any fun row => (parseLine h).length < row.length
    · exact ⟨LoadErr.parserErr, by simp, by simp [cargar_datos, hrag]⟩
    · by_cases hp : "periodo" ∈ parseLine h
      · have hc : "causa_mortalidad" ∉ parseLine h := hmiss.resolve_left (not_not_intro hp)
        exact ⟨LoadErr.keyErr "causa_mortalidad", by simp, by simp [cargar_datos, hrag, hp, hc]⟩
      · exact ⟨LoadErr.keyErr "periodo", by simp, by simp [cargar_datos, hrag, hp]⟩
  · intro res hok
    match hf : file with
    | none => exact absurd hok (by simp [cargar_datos])
    | some [] => exact absurd hok (by simp [cargar_datos])
    | some (h :: rows) =>
      by_cases hrag : (rows.map parseLine).any fun row => (parseLine h).length < row.length
      · rw [show cargar_datos (some (h :: rows)) = Except.error LoadErr.parserErr from
          by simp [cargar_datos, hrag]] at hok
        exact absurd hok (by simp)
      · by_cases hp : "periodo" ∈ parseLine h
        · by_cases hc : "causa_mortalidad" ∈ parseLine h
          · rw [show cargar_datos (some (h :: rows))
                = Except.ok (parseLine h, rows.map parseLine) from
              by simp [cargar_datos, hrag, hp, hc]] at hok
            cases hok
            exact ⟨hp, hc⟩
          · rw [show cargar_datos (some (h :: rows))
                = Except.error (LoadErr.keyErr "causa_mortalidad") from
              by simp [cargar_datos, hrag, hp, hc]] at hok
            exact absurd hok (by simp)
        · rw [show cargar_datos (some (h :: rows))
              = Except.error (LoadErr.keyErr "periodo") from
            by simp [cargar_datos, hrag, hp]] at hok
          exact absurd hok (by simp)

/-- C4 witness: the missing path fails with the FileNotFound error, and a
comma-separated file (its whole header parses as one field under the ";"
separator, so "periodo" is not among the parsed columns) fails with a
different error. -/
theorem claim_C4_witness :
    cargar_datos none = Except.error LoadErr.fileNotFound
    ∧ ∃ e, e ≠ LoadErr.fileNotFound
        ∧ cargar_datos (some ["periodo,causa_mortalidad,sexo", "2010,General,Hombres"])
          = Except.error e :=
  ⟨(claim_C4 none).1 rfl,
   (claim_C4 (some ["periodo,causa_mortalidad,sexo", "2010,General,Hombres"])).2.1
     "periodo,causa_mortalidad,sexo" ["2010,General,Hombres"] rfl (by decide)⟩

/-- C5: the figure 4 ratio for a cause is exactly the male mean divided by
the female mean — multiplying back by a positive female mean recovers the
male mean — and its defining equation carries no guard on the female
mean: the division is taken unconditionally (over ℚ a zero female mean
produces the junk value 0 where the floating-point source produces inf or
NaN). -/
theorem claim_C5 (df : Table) (causa : String)
    (h : 0 < cv_causa_sexo_mean df causa "Mujeres") :
    fig4_razon df causa * cv_causa_sexo_mean df causa "Mujeres"
      = cv_causa_sexo_mean df causa "Hombres"
    ∧ fig4_razon df causa
      = cv_causa_sexo_mean df causa "Hombres" / cv_causa_sexo_mean df causa "Mujeres" :=
  ⟨div_mul_cancel₀ _ (ne_of_gt h), rfl⟩

/-- C5 witness: on df5 the female mean is 10 > 0, the male mean is 30 and
the ratio is exactly 3, the literal example of the claim. -/
theorem claim_C5_witness :
    0 < cv_causa_sexo_mean df5 "Cancer" "Mujeres"
    ∧ fig4_razon df5 "Cancer" * cv_causa_sexo_mean df5 "Cancer" "Mujeres"
        = cv_causa_sexo_mean df5 "Cancer" "Hombres"
    ∧ fig4_razon df5 "Cancer" = 3 := by
  have hm : cv_causa_sexo_mean df5 "Cancer" "Mujeres" = 10 := by
    norm_num +decide [cv_causa_sexo_mean, df5, mkObs, mean, List.filter_cons, List.filter_nil]
  have hh : cv_causa_sexo_mean df5 "Cancer" "Hombres" = 30 := by
    norm_num +decide [cv_causa_sexo_mean, df5, mkObs, mean, List.filter_cons, List.filter_nil]
  have h0 : 0 < cv_causa_sexo_mean df5 "Cancer" "Mujeres" := by
    rw [hm]
    norm_num
  refine ⟨h0, (claim_C5 df5 "Cancer" h0).1, ?_⟩
  rw [(claim_C5 df5 "Cancer" h0).2, hh, hm]
  norm_num

/-- C7: when an equality selection that the figure expects to be inhabited
comes back empty, the `.values[0]` extraction yields the out-of-bounds
failure at that point and the whole figure computation aborts with it:
shown for the 2023 lookup of figure 1 (line 128) and the male 2023
life-expectancy lookup of figure 6 (lines 462-465). -/
theorem claim_C7 (df : Table) :
    ((fig1_cv_ambos df).filter (fun r => decide (r.periodo = 2023)) = [] →
      fig1_mort_2023 df = none ∧ fig1_annots df = none)
    ∧ ((df.filter fun r =>
        decide (r.ubicacion = "Comunitat Valenciana" ∧ r.causa_mortalidad = "General"
          ∧ r.sexo = "Hombres" ∧ r.periodo = 2023)) = [] →
      fig6_ev_2023 df "Hombres" = none ∧ fig6_brecha df = none) := by
  constructor
  · intro h
    have h1 : fig1_mort_2023 df = none := by
      unfold fig1_mort_2023 values0
      rw [h]
      rfl
    exact ⟨h1, by simp [fig1_annots, h1]⟩
  · intro h
    have h1 : fig6_ev_2023 df "Hombres" = none := by
      unfold fig6_ev_2023 values0
      rw [h]
      rfl
    exact ⟨h1, by simp [fig6_brecha, h1]⟩

/-- C7 witness: on the empty table both expected-row selections are empty
and figure 1 aborts with the out-of-bounds failure. -/
theorem claim_C7_witness :
    (fig1_cv_ambos []).filter (fun r => decide (r.periodo = 2023)) = []
      ∧ fig1_annots [] = none :=
  ⟨rfl, ((claim_C7 []).1 rfl).2⟩

/-- C8: the per-cause group mean of figure 2 is invariant under any
permutation of the rows of the input table. -/
theorem claim_C8 (df df2 : Table) (h : df.Perm df2) (causa : String) :
    fig2_mean df causa = fig2_mean df2 causa := by
  unfold fig2_mean mean
  have h1 : (((df.filter fig2_filter).filter fun r =>
      decide (r.causa_mortalidad = causa)).map Obs.tasa_mortalidad).Perm
      (((df2.filter fig2_filter).filter fun r =>
      decide (r.causa_mortalidad = causa)).map Obs.tasa_mortalidad) :=
    ((h.filter _).filter _).map _
  rw [h1.sum_eq, h1.length_eq]

/-- C8 witness: swapping the two rows of a concrete table leaves the
Cancer group mean unchanged. -/
theorem claim_C8_witness :
    ([rowA, rowB] : Table).Perm [rowB, rowA]
      ∧ fig2_mean [rowA, rowB] "Cancer" = fig2_mean [rowB, rowA] "Cancer" :=
  ⟨List.Perm.swap rowB rowA [],
   claim_C8 [rowA, rowB] [rowB, rowA] (List.Perm.swap rowB rowA []) "Cancer"⟩

/-- C9: each of the thirteen figure computations, and the sequential
pipeline that chains them, hands back the table it was given unchanged;
every derived aggregate lives in the output component, never in the
table. -/
theorem claim_C9 (df : Table) :
    (fig1_run df).1 = df ∧ (fig2_run df).1 = df ∧ (fig3_run df).1 = df
    ∧ (fig4_run df).1 = df ∧ (fig5_run df).1 = df ∧ (fig6_run df).1 = df
    ∧ (fig7_run df).1 = df ∧ (fig8_run df).1 = df ∧ (fig9_run df).1 = df
    ∧ (fig10_run df).1 = df ∧ (fig11_run df).1 = df ∧ (fig12_run df).1 = df
    ∧ (fig13_run df).1 = df ∧ (generar_todas_las_figuras_run df).1 = df :=
  ⟨rfl, rfl, rfl, rfl, rfl, rfl, rfl, rfl, rfl, rfl, rfl, rfl, rfl, rfl⟩

theorem range_map_getD {α : Type} (l : List α) (d : α) :
    (List.range l.length).map (fun i => l.getD i d) = l := by
  apply List.ext_getElem
  · simp
  · intro i h1 h2
    simp only [List.getElem_map, List.getElem_range]
    exact List.getD_eq_getElem _ _ (by simpa using h1)

theorem map_getD_perm {α : Type} (l : List α) (d : α) (idx : List ℕ)
    (h : idx.Perm (List.range l.length)) :
    (idx.map fun i => l.getD i d).Perm l := by
  have h2 := h.map fun i => l.getD i d
  rwa [range_map_getD] at h2

theorem fig8_pivot_length (df : Table) :
    (fig8_pivot df).length = ((fig8_filtered df).map Obs.ubicacion).dedup.length := by
  unfold fig8_pivot fig8_locs sortedDedupStr
  rw [List.length_map, (List.perm_insertionSort _ _).length_eq]

theorem fig8_proms_length (df : Table) :
    (fig8_proms df).length = (fig8_pivot df).length := by
  unfold fig8_proms
  rw [List.length_map]

theorem fig8_orden_perm (df : Table) :
    (fig8_orden df).Perm (List.range (fig8_pivot df).length) := by
  unfold fig8_orden
  have h := argsortAsc_perm (fig8_proms df)
  rw [fig8_proms_length] at h
  exact (List.reverse_perm _).trans h

theorem fig8_rendered_perm (df : Table) :
    (fig8_rendered df).Perm (fig8_pivot df) :=
  map_getD_perm _ _ _ (fig8_orden_perm df)

theorem fig8_years_length (df : Table) :
    (fig8_years df).length = ((fig8_filtered df).map Obs.periodo).dedup.length := by
  unfold fig8_years sortedDedupInt
  rw [(List.perm_insertionSort _ _).length_eq]

/-- C6: the pivot of figure 8 has exactly one row per distinct location
and one column per distinct year of the filtered rows; each matrix entry
at a valid (row, column) index is the cell of its location and year,
where a cell with at least one matching row is the mean tasa_mortalidad
of the matching rows; and the rendered matrix is a row permutation of the
pivot — the derived promedio column only chooses the row order
(descending) and is absent from the rendered rows. -/
theorem claim_C6 (df : Table) :
    (fig8_rendered df).length = ((fig8_filtered df).map Obs.ubicacion).dedup.length
    ∧ (∀ row ∈ fig8_rendered df,
        row.2.length = ((fig8_filtered df).map Obs.periodo).dedup.length)
    ∧ (fig8_rendered df).Perm (fig8_pivot df)
    ∧ (∀ i j, i < (fig8_locs df).length → j < (fig8_years df).length →
        ((fig8_pivot df).getD i ("", [])).1 = (fig8_locs df).getD i ""
        ∧ ((fig8_pivot df).getD i ("", [])).2.getD j none
            = fig8_cell df ((fig8_locs df).getD i "") ((fig8_years df).getD j 0))
    ∧ (∀ loc y, fig8_matching df loc y ≠ [] →
        fig8_cell df loc y
          = some (mean ((fig8_matching df loc y).map Obs.tasa_mortalidad))) := by
  refine ⟨?_, ?_, fig8_rendered_perm df, ?_, ?_⟩
  · rw [(fig8_rendered_perm df).length_eq, fig8_pivot_length]
  · intro row hrow
    have hmem : row ∈ fig8_pivot df := (fig8_rendered_perm df).subset hrow
    unfold fig8_pivot at hmem
    obtain ⟨loc, _, rfl⟩ := List.mem_map.mp hmem
    rw [← fig8_years_length]
    simp
  · intro i j hi hj
    have hpiv : (fig8_pivot df).getD i ("", [])
        = ((fig8_locs df).getD i "",
           (fig8_years df).map fun y => fig8_cell df ((fig8_locs df).getD i "") y) := by
      unfold fig8_pivot
      rw [List.getD_eq_getElem _ _ (by simpa using hi), List.getElem_map,
        List.getD_eq_getElem _ _ hi]
    rw [hpiv]
    refine ⟨rfl, ?_⟩
    rw [List.getD_eq_getElem _ _ (by simpa using hj), List.getElem_map,
      List.getD_eq_getElem _ _ hj]
  · intro loc y hne
    unfold fig8_cell
    rw [if_neg hne]

/-- C6 witness: on the concrete table df6 (locations "A" and "B", years
2010 and 2011) the entry at matrix position (0, 0) is the cell of the
first location and year, and the nonempty cell ("A", 2010) is the mean of
its matching rows. -/
theorem claim_C6_witness :
    (0 : ℕ) < (fig8_locs df6).length ∧ (0 : ℕ) < (fig8_years df6).length
    ∧ ((fig8_pivot df6).getD 0 ("", [])).2.getD 0 none
        = fig8_cell df6 ((fig8_locs df6).getD 0 "") ((fig8_years df6).getD 0 0)
    ∧ fig8_matching df6 "A" 2010 ≠ []
    ∧ fig8_cell df6 "A" 2010
        = some (mean ((fig8_matching df6 "A" 2010).map Obs.tasa_mortalidad)) := by
  have hlocs : (fig8_locs df6).length = 2 := by
    unfold fig8_locs sortedDedupStr
    rw [(List.perm_insertionSort _ _).length_eq]
    decide
  have hyears : (fig8_years df6).length = 2 := by
    unfold fig8_years sortedDedupInt
    rw [(List.perm_insertionSort _ _).length_eq]
    decide
  refine ⟨by rw [hlocs]; norm_num, by rw [hyears]; norm_num,
    ((claim_C6 df6).2.2.2.1 0 0 (by rw [hlocs]; norm_num) (by rw [hyears]; norm_num)).2,
    by decide,
    (claim_C6 df6).2.2.2.2 "A" 2010 (by decide)⟩

/-- Splitting the rows with periodo up to 2019 into those up to 2017 and
those in {2018, 2019}: sums and counts of the tasa_mortalidad column add
up, because the two predicates are disjoint and integer years at most
2019 satisfy exactly one of them. -/
theorem filter_periodo_split (l : Table) :
    ((l.filter fun r => decide (r.periodo ≤ 2019)).map Obs.tasa_mortalidad).sum
      = ((l.filter fun r => decide (r.periodo ≤ 2017)).map Obs.tasa_mortalidad).sum
        + ((l.filter fun r =>
            decide (r.periodo = 2018 ∨ r.periodo = 2019)).map Obs.tasa_mortalidad).sum
    ∧ ((l.filter fun r => decide (r.periodo ≤ 2019)).map Obs.tasa_mortalidad).length
      = ((l.filter fun r => decide (r.periodo ≤ 2017)).map Obs.tasa_mortalidad).length
        + ((l.filter fun r =>
            decide (r.periodo = 2018 ∨ r.periodo = 2019)).map Obs.tasa_mortalidad).length := by
  induction l with
  | nil => simp
  | cons r t ih =>
    obtain ⟨ihs, ihl⟩ := ih
    by_cases h17 : r.periodo ≤ 2017
    · have h19 : r.periodo ≤ 2019 := by omega
      have h89 : ¬(r.periodo = 2018 ∨ r.periodo = 2019) := by omega
      simp [List.filter_cons, h17, h19, h89, ihs, ihl]
      constructor
      · ring
      · omega
    · by_cases h89 : r.periodo = 2018 ∨ r.periodo = 2019
      · have h19 : r.periodo ≤ 2019 := by omega
        simp [List.filter_cons, h17, h19, h89, ihs, ihl]
        constructor
        · ring
        · omega
      · have h19 : ¬r.periodo ≤ 2019 := by omega
        simp [List.filter_cons, h17, h19, h89, ihs, ihl]

/-- Arithmetic core of the baseline comparison: with positive counts, the
mean of a two-part pool differs from the mean of the second part exactly
when the two part means differ. -/
theorem mean_split_iff (s1 s2 n1 n2 : ℚ) (hn1 : 0 < n1) (hn2 : 0 < n2) :
    (s2 / n2 ≠ (s1 + s2) / (n1 + n2)) ↔ (s1 / n1 ≠ s2 / n2) := by
  have heq : s2 / n2 = (s1 + s2) / (n1 + n2) ↔ s1 / n1 = s2 / n2 := by
    rw [div_eq_div_iff (ne_of_gt hn2) (ne_of_gt (add_pos hn1 hn2)),
      div_eq_div_iff (ne_of_gt hn1) (ne_of_gt hn2)]
    constructor
    · intro h
      nlinarith [h]
    · intro h
      nlinarith [h]
  exact not_iff_not.mpr heq

/-- C10 (amended): figure 12 takes its pre-COVID baseline as the mean rate
over exactly the years 2018 and 2019, while the COVID-excess baseline of
figure 13 is the mean over all filtered rows with periodo up to 2019; the
two baselines differ precisely when the mean over the rows up to 2017
differs from the 2018-2019 mean (so they can coincide on non-constant
data, but diverge whenever the earlier years average differently from
2018-2019). -/
theorem claim_C10 (df : Table)
    (h1 : ((cv_general_ambos df).filter fun r =>
      decide (r.periodo = 2018 ∨ r.periodo = 2019)) ≠ [])
    (h2 : ((cv_general_ambos df).filter fun r => decide (r.periodo ≤ 2017)) ≠ []) :
    fig12_pre_covid df ≠ fig13_promedio_historico df
      ↔ mean (((cv_general_ambos df).filter fun r =>
          decide (r.periodo ≤ 2017)).map Obs.tasa_mortalidad) ≠ fig12_pre_covid df := by
  have key := filter_periodo_split (cv_general_ambos df)
  have hl1 : 0 < (((cv_general_ambos df).filter fun r =>
      decide (r.periodo ≤ 2017)).map Obs.tasa_mortalidad).length := by
    rw [List.length_map]
    exact List.length_pos.mpr h2
  have hl2 : 0 < (((cv_general_ambos df).filter fun r =>
      decide (r.periodo = 2018 ∨ r.periodo = 2019)).map Obs.tasa_mortalidad).length := by
    rw [List.length_map]
    exact List.length_pos.mpr h1
  have e13 : fig13_promedio_historico df
      = ((((cv_general_ambos df).filter fun r =>
          decide (r.periodo ≤ 2017)).map Obs.tasa_mortalidad).sum
        + (((cv_general_ambos df).filter fun r =>
          decide (r.periodo = 2018 ∨ r.periodo = 2019)).map Obs.tasa_mortalidad).sum)
        / (((((cv_general_ambos df).filter fun r =>
          decide (r.periodo ≤ 2017)).map Obs.tasa_mortalidad).length : ℚ)
        + ((((cv_general_ambos df).filter fun r =>
          decide (r.periodo = 2018 ∨ r.periodo = 2019)).map Obs.tasa_mortalidad).length : ℚ)) := by
    unfold fig13_promedio_historico mean
    rw [key.1, key.2]
    push_cast
    ring
  rw [e13]
  show mean _ ≠ _ ↔ _
  unfold fig12_pre_covid mean
  exact mean_split_iff _ _ _ _ (by exact_mod_cast hl1) (by exact_mod_cast hl2)

/-- C10 witness: on the table dfW the 2010-2017 mean (50) differs from the
2018-2019 mean (100), and the equivalence places the two baselines
apart. -/
theorem claim_C10_witness :
    ((cv_general_ambos dfW).filter fun r =>
      decide (r.periodo = 2018 ∨ r.periodo = 2019)) ≠ []
    ∧ (fig12_pre_covid dfW ≠ fig13_promedio_historico dfW
        ↔ mean (((cv_general_ambos dfW).filter fun r =>
            decide (r.periodo ≤ 2017)).map Obs.tasa_mortalidad) ≠ fig12_pre_covid dfW) :=
  ⟨by decide, claim_C10 dfW (by decide) (by decide)⟩

/-- C10 counterexample: on the table dfX the filtered 2010-2019 rates are
not constant (both 90 and 110 occur), yet the figure 12 baseline and the
figure 13 historic baseline are the same number, refuting the claim that
non-constant rates force the two baselines apart. -/
theorem claim_C10_cex :
    (90 : ℚ) ∈ ((cv_general_ambos dfX).filter fun r =>
        decide (r.periodo ≤ 2019)).map Obs.tasa_mortalidad
    ∧ (110 : ℚ) ∈ ((cv_general_ambos dfX).filter fun r =>
        decide (r.periodo ≤ 2019)).map Obs.tasa_mortalidad
    ∧ (90 : ℚ) ≠ 110
    ∧ fig12_pre_covid dfX = fig13_promedio_historico dfX := by
  have h12 : fig12_pre_covid dfX = 100 := by
    norm_num +decide [fig12_pre_covid, cv_general_ambos, dfX, mkObs, mean,
      List.filter_cons, List.filter_nil]
  have h13 : fig13_promedio_historico dfX = 100 := by
    norm_num +decide [fig13_promedio_historico, cv_general_ambos, dfX, mkObs, mean,
      List.filter_cons, List.filter_nil]
  exact ⟨by decide, by decide, by norm_num, by rw [h12, h13]⟩

theorem brecha_dfA : fig13_brecha_genero dfA = some 4 := by
  have hh : fig13_ev_h_2022 dfA = some 18 := rfl
  have hm : fig13_ev_m_2022 dfA = some 22 := rfl
  simp only [fig13_brecha_genero, hh, hm, Option.bind_some, Option.some_bind]
  norm_num

theorem brecha_dfB : fig13_brecha_genero dfB = some 5 := by
  have hh : fig13_ev_h_2022 dfB = some 18 := rfl
  have hm : fig13_ev_m_2022 dfB = some 23 := rfl
  simp only [fig13_brecha_genero, hh, hm, Option.bind_some, Option.some_bind]
  norm_num

/-- C1 (amended): of the two KPI numbers, only the life-expectancy display
is a hardcoded constant — 20.6 for every input table, annotated in the
source as the official value. The gender-gap display is computed from the
loaded table: it equals the female minus the male 2022 life expectancy
extracted from the table, and two tables differing in those rows display
different gaps. -/
theorem claim_C1 :
    (∀ df : Table, fig13_ev_dashboard df = 20.6)
    ∧ (∀ df h m, fig13_ev_h_2022 df = some h → fig13_ev_m_2022 df = some m →
        fig13_brecha_genero df = some (m - h))
    ∧ (∃ d1 d2 : Table, fig13_brecha_genero d1 ≠ fig13_brecha_genero d2) := by
  refine ⟨fun _ => rfl, ?_, ⟨dfA, dfB, ?_⟩⟩
  · intro df h m hh hm
    simp [fig13_brecha_genero, hh, hm]
  · intro hcon
    rw [brecha_dfA, brecha_dfB] at hcon
    exact absurd (Option.some.inj hcon) (by norm_num)

/-- C1 witness: the gender-gap equation applied to the concrete table
dfA. -/
theorem claim_C1_witness :
    fig13_ev_h_2022 dfA = some 18 ∧ fig13_ev_m_2022 dfA = some 22
      ∧ fig13_brecha_genero dfA = some (22 - 18) :=
  ⟨rfl, rfl, claim_C1.2.1 dfA 18 22 rfl rfl⟩

/-- C1 counterexample: the gender-gap display is not a constant of the
program: tables dfA and dfB (differing only in the female 2022 life
expectancy) make the dashboard display gaps 4 and 5. -/
theorem claim_C1_cex : fig13_brecha_genero dfA ≠ fig13_brecha_genero dfB := by
  intro hcon
  rw [brecha_dfA, brecha_dfB] at hcon
  exact absurd (Option.some.inj hcon) (by norm_num)

/-- C2: the percent-change operation of the figure functions satisfies
pc(a, a) = 0, pc(a, b) > 0 for b > a, pc(a, b) < 0 for b < a (for
positive start a), and the antisymmetry identity in its corrected form
pc(a, b) = -pc(b, a) * (b / a) for nonzero a and b. -/
theorem claim_C2 (a b : ℚ) (ha : 0 < a) :
    percent_change a a = 0
      ∧ (a < b → 0 < percent_change a b)
      ∧ (b < a → percent_change a b < 0)
      ∧ (b ≠ 0 → percent_change a b = -percent_change b a * (b / a)) := by
  have ha0 : a ≠ 0 := ne_of_gt ha
  refine ⟨by simp [percent_change], ?_, ?_, ?_⟩
  · intro hab
    have h1 : 0 < (b - a) / a := div_pos (sub_pos.mpr hab) ha
    have h2 : (0 : ℚ) < 100 := by norm_num
    simpa [percent_change] using mul_pos h1 h2
  · intro hab
    have h1 : (b - a) / a < 0 := div_neg_of_neg_of_pos (sub_neg.mpr hab) ha
    have h2 : (0 : ℚ) < 100 := by norm_num
    simpa [percent_change] using mul_neg_of_neg_of_pos h1 h2
  · intro hb0
    unfold percent_change
    field_simp
    ring

/-- C2 witness: the corrected antisymmetry identity evaluated at the
concrete pair (1, 2). -/
theorem claim_C2_witness :
    (0 : ℚ) < 1 ∧ percent_change 1 2 = -percent_change 2 1 * (2 / 1) :=
  ⟨by norm_num, (claim_C2 1 2 (by norm_num)).2.2.2 (by norm_num)⟩

/-- C2 counterexample: the identity exactly as the claim states it, with
factor a / b instead of b / a, fails at a = 1, b = 2 (both nonzero):
pc(1, 2) = 100 while -pc(2, 1) * (1 / 2) = 25. -/
theorem claim_C2_cex :
    (1 : ℚ) ≠ 0 ∧ (2 : ℚ) ≠ 0
      ∧ percent_change 1 2 ≠ -percent_change 2 1 * (1 / 2) := by
  refine ⟨by norm_num, by norm_num, ?_⟩
  unfold percent_change
  norm_num

end Figuras
